import Mathlib

/-!
Verification of the plugin lifecycle and dispatch subsystem of the
`celarye/discord-bot` repository.

The Rust sources are shallowly embedded: pure fragments become Lean
functions, stateful fragments become explicit state passing, byte vectors
become `List Nat`, and Rust `HashMap`s whose iteration order is irrelevant
to the verified properties become association lists or functional maps.
Each definition cites the source location it embeds.
-/

namespace DiscordBot

/-! ## Registry manifests and version selection (`src/plugins/registry.rs`) -/

/-- One version entry of a registry manifest
(`registry.rs:34-40`, `RegistryPluginVersion`).  `deprecated` is an optional
pair of a flag and a reason string. -/
structure RegistryPluginVersion where
  version : String
  deprecated : Option (Bool × String)
  compatible_program_version : String
deriving DecidableEq

/-- The deprecation test used at `registry.rs:249-251`: the entry counts as
deprecated when the optional pair is present and its flag is true. -/
def deprecatedFlag (v : RegistryPluginVersion) : Bool :=
  match v.deprecated with
  | some d => d.1
  | none => false

/-- `check_plugin_version_usability` (`registry.rs:248-270`).  The host's own
version string (`env!("CARGO_PKG_VERSION")` in the source, a constant taken
from the build manifest which is not under `src/`) is passed as the
`hostVersion` parameter.  The source compares
`compatible_program_version` with the byte slice
`CARGO_PKG_VERSION[..len]`; for the ASCII version strings involved this is
`hostVersion.take len`.  (When `len` exceeds the host string's length the
Rust slice panics; every theorem below stays inside the in-bounds case,
where `String.take` agrees with the slice.) -/
def check_plugin_version_usability (hostVersion : String)
    (v : RegistryPluginVersion) : Bool :=
  if deprecatedFlag v then
    false
  else if v.compatible_program_version ≠
      hostVersion.take v.compatible_program_version.length then
    false
  else
    true

/-- `find_plugin_version_match` (`registry.rs:226-246`): `latest` scans the
version list newest→oldest and picks the first usable entry; an explicit
request finds the exact version string and then requires usability. -/
def find_plugin_version_match (hostVersion requested : String)
    (plugin_versions : List RegistryPluginVersion) : Option String :=
  if requested = "latest" then
    (plugin_versions.reverse.find?
        (fun v => check_plugin_version_usability hostVersion v)).map
      (fun v => v.version)
  else
    match plugin_versions.find? (fun v => v.version == requested) with
    | some v =>
        if check_plugin_version_usability hostVersion v then some v.version
        else none
    | none => none

/-! ## Plugin reference parsing (`registry.rs:159-180`) -/

/-- `celarye/discord-bot-plugins`, the compile-time default registry id
(`registry.rs:44`). -/
def DEFAULT_REGISTRY_ID : String := "celarye/discord-bot-plugins"

/-- Split a character list at the last occurrence of `c`, as Rust's
`str::rsplit_once` does on the underlying string. -/
def rsplitOnceChars (l : List Char) (c : Char) :
    Option (List Char × List Char) :=
  match l with
  | [] => none
  | x :: xs =>
    match rsplitOnceChars xs c with
    | some (a, b) => some (x :: a, b)
    | none => if x = c then some ([], xs) else none

/-- `str::rsplit_once` on ASCII strings. -/
def rsplitOnce (s : String) (c : Char) : Option (String × String) :=
  (rsplitOnceChars s.data c).map (fun p => (String.mk p.1, String.mk p.2))

/-- `parse_plugin_string` (`registry.rs:159-180`): splits
`[<registry>/]<plugin-id>[:<version>]` into
`(registry id, plugin registry id, requested version)`, defaulting the
registry to `DEFAULT_REGISTRY_ID` and the version to `"latest"`. -/
def parse_plugin_string (value : String) : String × String × String :=
  let p1 :=
    match rsplitOnce value '/' with
    | some (registry_id, rest) => (registry_id, rest)
    | none => (DEFAULT_REGISTRY_ID, value)
  let p2 :=
    match rsplitOnce p1.2 ':' with
    | some (plugin_registry_id, requested) => (plugin_registry_id, requested)
    | none => (p1.2, "latest")
  (p1.1, p2.1, p2.2)

/-! ## Application-command name collisions (`src/discord/interactions.rs`) -/

/-- One application-command registration request after deserializing its
`command_data` bytes (`interactions.rs:36-71`): the plugin that asked for
it, the plugin-internal id, and the `name` and optional `guild_id` fields
of the deserialized command. -/
structure CommandRegistration where
  plugin_id : String
  internal_id : String
  name : String
  guild_id : Option Nat
deriving DecidableEq

/-- The requests that `application_command_registrations` accumulates into
one `(guild, name)` bucket (`interactions.rs:48-70`): the nested
`HashMap`-of-`Vec` grouping keeps, for each guild key and name key, the
requests with that guild and name in their arrival order.  The maps'
iteration order across distinct buckets is not modelled; every verified
property concerns a single bucket. -/
def commandGroup (reqs : List CommandRegistration) (g : Option Nat)
    (n : String) : List CommandRegistration :=
  reqs.filter (fun r => r.guild_id == g && r.name == n)

/-- The names under which one `(guild, name)` bucket is forwarded to the
chat service, in bucket order (`interactions.rs:207-276` for global
commands and `interactions.rs:278-350` for guild commands, which use the
same logic): a bucket of exactly one request keeps its original name;
otherwise `~N` is appended to every entry, with the counter starting at 1
for the first entry (`command_name_occurence_count` at
`interactions.rs:236` and `interactions.rs:308`). -/
def registeredNames (entries : List CommandRegistration) : List String :=
  if entries.length = 1 then
    entries.map (fun r => r.name)
  else
    entries.enum.map (fun p => p.2.name ++ "~" ++ toString (p.1 + 1))

/-! ## Capability bitset parsing (`src/plugins.rs:31-79`) -/

namespace SupportedRegistrations

/-- Bit assignments of the WIT-generated `SupportedRegistrations` bitflags,
in the declaration order the deserializer's match arms follow
(`plugins.rs:39-72`).  The flag type itself is produced by
`wasmtime::component::bindgen!` from the WIT interface, which is not under
`src/`; only the relative bit layout matters for the verified claims. -/
def DEPENDENCY_FUNCTIONS : Nat := 1

def DISCORD_EVENT_MESSAGE_CREATE : Nat := 2

def DISCORD_EVENT_INTERACTION_CREATE : Nat := 4

def DISCORD_EVENT_THREAD_CREATE : Nat := 8

def DISCORD_EVENT_THREAD_DELETE : Nat := 16

def DISCORD_EVENT_THREAD_LIST_SYNC : Nat := 32

def DISCORD_EVENT_THREAD_MEMBER_UPDATE : Nat := 64

def DISCORD_EVENT_THREAD_MEMBERS_UPDATE : Nat := 128

def DISCORD_EVENT_THREAD_UPDATE : Nat := 256

def SHUTDOWN : Nat := 512

end SupportedRegistrations

/-- ASCII uppercasing, the effect of `str::to_uppercase`
(`plugins.rs:38`) on the ASCII permission strings of the configuration. -/
def toUpperAscii (s : String) : String := String.mk (s.data.map Char.toUpper)

/-- The canonical capability names and their bits, in the order of the
match arms at `plugins.rs:39-72`. -/
def capabilityNames : List (String × Nat) :=
  [("DEPENDENCY_FUNCTIONS", SupportedRegistrations.DEPENDENCY_FUNCTIONS),
   ("DISCORD_EVENT_MESSAGE_CREATE",
     SupportedRegistrations.DISCORD_EVENT_MESSAGE_CREATE),
   ("DISCORD_EVENT_INTERACTION_CREATE",
     SupportedRegistrations.DISCORD_EVENT_INTERACTION_CREATE),
   ("DISCORD_EVENT_THREAD_CREATE",
     SupportedRegistrations.DISCORD_EVENT_THREAD_CREATE),
   ("DISCORD_EVENT_THREAD_DELETE",
     SupportedRegistrations.DISCORD_EVENT_THREAD_DELETE),
   ("DISCORD_EVENT_THREAD_LIST_SYNC",
     SupportedRegistrations.DISCORD_EVENT_THREAD_LIST_SYNC),
   ("DISCORD_EVENT_THREAD_MEMBER_UPDATE",
     SupportedRegistrations.DISCORD_EVENT_THREAD_MEMBER_UPDATE),
   ("DISCORD_EVENT_THREAD_MEMBERS_UPDATE",
     SupportedRegistrations.DISCORD_EVENT_THREAD_MEMBERS_UPDATE),
   ("DISCORD_EVENT_THREAD_UPDATE",
     SupportedRegistrations.DISCORD_EVENT_THREAD_UPDATE),
   ("SHUTDOWN", SupportedRegistrations.SHUTDOWN)]

/-- One match arm lookup of the deserializer (`plugins.rs:38-74`): uppercase
the supplied string, then map it to its capability bit; an unknown string
hits the `unimplemented!()` arm, modelled as `none`. -/
def parseSupportedRegistration (s : String) : Option Nat :=
  match toUpperAscii s with
  | "DEPENDENCY_FUNCTIONS" =>
      some SupportedRegistrations.DEPENDENCY_FUNCTIONS
  | "DISCORD_EVENT_MESSAGE_CREATE" =>
      some SupportedRegistrations.DISCORD_EVENT_MESSAGE_CREATE
  | "DISCORD_EVENT_INTERACTION_CREATE" =>
      some SupportedRegistrations.DISCORD_EVENT_INTERACTION_CREATE
  | "DISCORD_EVENT_THREAD_CREATE" =>
      some SupportedRegistrations.DISCORD_EVENT_THREAD_CREATE
  | "DISCORD_EVENT_THREAD_DELETE" =>
      some SupportedRegistrations.DISCORD_EVENT_THREAD_DELETE
  | "DISCORD_EVENT_THREAD_LIST_SYNC" =>
      some SupportedRegistrations.DISCORD_EVENT_THREAD_LIST_SYNC
  | "DISCORD_EVENT_THREAD_MEMBER_UPDATE" =>
      some SupportedRegistrations.DISCORD_EVENT_THREAD_MEMBER_UPDATE
  | "DISCORD_EVENT_THREAD_MEMBERS_UPDATE" =>
      some SupportedRegistrations.DISCORD_EVENT_THREAD_MEMBERS_UPDATE
  | "DISCORD_EVENT_THREAD_UPDATE" =>
      some SupportedRegistrations.DISCORD_EVENT_THREAD_UPDATE
  | "SHUTDOWN" => some SupportedRegistrations.SHUTDOWN
  | _ => none

/-- `Deserialize for SupportedRegistrations` (`plugins.rs:31-79`): start from
the empty bitset and `|=` the bit of each supplied string in order; the
`unimplemented!()` panic on an unknown string is modelled by `none`
absorbing the rest of the fold. -/
def deserializeSupportedRegistrations (strings : List String) : Option Nat :=
  strings.foldl
    (fun acc s =>
      match acc, parseSupportedRegistration s with
      | some a, some b => some (a ||| b)
      | _, _ => none)
    (some 0)

/-! ## Registration store mutations during plugin initialization
(`src/plugins/runtime.rs:85-368`) -/

/-- The `message_components` / `modals` maps of the registration store
(`plugins.rs:112-113`, `HashMap<String, String>` from custom id to plugin
id), modelled as a functional map from keys to values: `HashMap` content is
key-value pairs with no meaningful order. -/
def emptyStringMap : String → Option String := fun _ => none

/-- The per-plugin custom-id registration loop
(`runtime.rs:239-254` for message components, `runtime.rs:256-268` for
modals, both identical): each custom id of the request is inserted with the
current plugin's id as value, `HashMap::insert` overwriting any previous
entry for the same custom id.  The loop body contains no logging statement;
the second component collects the warning lines emitted by this step, which
are none (the source carries only the comment `TODO: Prevent duplicate
entries` at `runtime.rs:237`). -/
def registerCustomIds (store : String → Option String) (pluginId : String)
    (customIds : List String) : (String → Option String) × List String :=
  (customIds.foldl
      (fun s cid => fun k => if k = cid then some pluginId else s k) store,
    [])

/-- The custom-id registrations of one startup pass: plugins are processed
in initialization order, each contributing its list of custom ids;
warnings accumulate across steps. -/
def registerAllCustomIds (plugins : List (String × List String)) :
    (String → Option String) × List String :=
  plugins.foldl
    (fun acc p =>
      ((registerCustomIds acc.1 p.1 p.2).1,
        acc.2 ++ (registerCustomIds acc.1 p.1 p.2).2))
    (emptyStringMap, [])

/-- The registration request a plugin's `initialization` export returns
(the WIT record consumed at `runtime.rs:213-348`): event-subscription
flags, application commands as `(internal id, command data bytes)`, custom
ids for message components and modals, scheduled jobs as
`(internal id, cron expressions)`, and exported dependency function
names. -/
structure RegistrationRequest where
  message_create : Bool
  thread_create : Bool
  thread_delete : Bool
  thread_list_sync : Bool
  thread_member_update : Bool
  thread_members_update : Bool
  thread_update : Bool
  application_commands : List (String × List Nat)
  message_components : List String
  modals : List String
  scheduled_jobs : List (String × List String)
  dependency_functions : List String

/-- The outcome of loading one available plugin inside the
`initialize_plugins` loop, one constructor per exit of the pipeline at
`runtime.rs:101-200`, in pipeline order.  `readFailed` is the case in which
`fs::read(plugin_dir.join("plugin.wasm"))` returns `Err`: the source calls
`.unwrap()` on it (`runtime.rs:104`).  `workspaceCheckFailed` is the case
in which `fs::exists(workspace)` returns `Err`: the source returns `Err(())`
from the whole function (`runtime.rs:135-141`).  `compileFailed`
(`runtime.rs:105-115`), `instantiateFailed` (`runtime.rs:160-172`) and
`initFailed` (the export trapped or returned an error string,
`runtime.rs:183-199`) are logged and skip to the next plugin.  `initOk`
carries the registration request the export returned. -/
inductive PluginLoadResult where
  | readFailed
  | compileFailed
  | workspaceCheckFailed
  | instantiateFailed
  | initFailed
  | initOk (regs : RegistrationRequest)

/-- The registration store fields that `initialize_plugins` mutates
(`PluginRegistrations`, `plugins.rs:90-114`): subscriber lists per event
kind, the two custom-id maps, and the dependency-function map from plugin
id to its set of exported function names (the `HashSet` is modelled as the
list of inserted names). -/
structure RegistrationsStore where
  message_create : List String
  thread_create : List String
  thread_delete : List String
  thread_list_sync : List String
  thread_member_update : List String
  thread_members_update : List String
  thread_update : List String
  message_components : String → Option String
  modals : String → Option String
  dependency_functions : String → Option (List String)

/-- The store as built by `PluginRegistrations::new` (`plugins.rs:153-174`):
everything empty. -/
def emptyRegistrationsStore : RegistrationsStore where
  message_create := []
  thread_create := []
  thread_delete := []
  thread_list_sync := []
  thread_member_update := []
  thread_members_update := []
  thread_update := []
  message_components := emptyStringMap
  modals := emptyStringMap
  dependency_functions := fun _ => none

/-- The requests accumulated during initialization and forwarded once at
the end (`runtime.rs:92-99` and `runtime.rs:351-365`): application commands
to the chat-service collaborator and scheduled jobs to the cron
collaborator, each tagged with the requesting plugin's id. -/
structure ForwardedRequests where
  application_commands : List (String × String × List Nat)
  scheduled_jobs : List (String × String × List String)

/-- No requests accumulated yet (`runtime.rs:92-99`). -/
def emptyForwardedRequests : ForwardedRequests where
  application_commands := []
  scheduled_jobs := []

/-- The dependency-function registration loop (`runtime.rs:340-348`):
`entry(plugin.id).or_insert(HashSet::new())` followed by one insert per
exported name. -/
def insertDependencyFunctions (m : String → Option (List String))
    (pluginId : String) (fns : List String) : String → Option (List String) :=
  fns.foldl
    (fun acc fn => fun k =>
      if k = pluginId then some ((acc pluginId).getD [] ++ [fn]) else acc k)
    m

/-- The store mutations performed for one successfully loaded plugin
(`runtime.rs:213-348`): subscriber-list pushes for each subscribed event
kind, custom-id inserts, and dependency-function inserts.  The source
performs them after inserting the plugin into the runtime map
(`runtime.rs:207-211`). -/
def applyRegistrations (pluginId : String) (regs : RegistrationRequest)
    (store : RegistrationsStore) : RegistrationsStore where
  message_create :=
    if regs.message_create then store.message_create ++ [pluginId]
    else store.message_create
  thread_create :=
    if regs.thread_create then store.thread_create ++ [pluginId]
    else store.thread_create
  thread_delete :=
    if regs.thread_delete then store.thread_delete ++ [pluginId]
    else store.thread_delete
  thread_list_sync :=
    if regs.thread_list_sync then store.thread_list_sync ++ [pluginId]
    else store.thread_list_sync
  thread_member_update :=
    if regs.thread_member_update then store.thread_member_update ++ [pluginId]
    else store.thread_member_update
  thread_members_update :=
    if regs.thread_members_update then
      store.thread_members_update ++ [pluginId]
    else store.thread_members_update
  thread_update :=
    if regs.thread_update then store.thread_update ++ [pluginId]
    else store.thread_update
  message_components :=
    (registerCustomIds store.message_components pluginId
      regs.message_components).1
  modals := (registerCustomIds store.modals pluginId regs.modals).1
  dependency_functions :=
    insertDependencyFunctions store.dependency_functions pluginId
      regs.dependency_functions

/-- The requests accumulated for one successfully loaded plugin
(`runtime.rs:222-235` and `runtime.rs:330-338`), pushed in request
order. -/
def applyForwarded (pluginId : String) (regs : RegistrationRequest)
    (fwd : ForwardedRequests) : ForwardedRequests where
  application_commands :=
    fwd.application_commands ++
      regs.application_commands.map (fun c => (pluginId, c.1, c.2))
  scheduled_jobs :=
    fwd.scheduled_jobs ++
      regs.scheduled_jobs.map (fun j => (pluginId, j.1, j.2))

/-- The three ways the `initialize_plugins` loop can end: a panic escaping
through the `.unwrap()` at `runtime.rs:104`, an early `Err(())` return
(`runtime.rs:140`), or normal completion with the runtime map keys, the
final store, and the requests forwarded to the two collaborators
(`runtime.rs:351-367`). -/
inductive InitOutcome where
  | panicked
  | erred (loaded : List String) (store : RegistrationsStore)
  | ok (loaded : List String) (store : RegistrationsStore)
      (fwd : ForwardedRequests)

/-- `Runtime::initialize_plugins` (`runtime.rs:85-368`), abstracted over the
per-plugin load outcome (which in the source is determined by the artifact
bytes, the WASM engine, and the plugin's export): each available plugin is
processed in list order; failures are handled per constructor of
`PluginLoadResult`; a successfully initialized plugin is inserted into the
runtime map and its registrations and forwardable requests are recorded.
Named after the caller `plugin_initializations` (`main.rs:149-167`), which
invokes the runtime method on the empty map and empty store. -/
def plugin_initializations (plugins : List (String × PluginLoadResult))
    (loaded : List String) (store : RegistrationsStore)
    (fwd : ForwardedRequests) : InitOutcome :=
  match plugins with
  | [] => .ok loaded store fwd
  | (pluginId, res) :: rest =>
    match res with
    | .readFailed => .panicked
    | .compileFailed => plugin_initializations rest loaded store fwd
    | .workspaceCheckFailed => .erred loaded store
    | .instantiateFailed => plugin_initializations rest loaded store fwd
    | .initFailed => plugin_initializations rest loaded store fwd
    | .initOk regs =>
        plugin_initializations rest (pluginId :: loaded)
          (applyRegistrations pluginId regs store)
          (applyForwarded pluginId regs fwd)

/-! ## Shutdown coordinator (`runtime.rs:444-476`) and the host-call
surface (`src/plugins/builder.rs`, `src/plugins/runtime/internal.rs`) -/

/-- The shutdown reasons (`main.rs:34-39`). -/
inductive ShutdownType where
  | Normal
  | SigInt
  | Restart
deriving DecidableEq

/-- The externally visible steps of `Runtime::shutdown`, in the order the
source performs them. -/
inductive ShutdownAction where
  | jobSchedulerStop
  | discordClientStop
  | pluginShutdownCall (pluginId : String)
  | cancelToken
deriving DecidableEq

/-- The state `Runtime::shutdown` manipulates: the global `SHUTDOWN` slot
(`main.rs:41`) and the cancellation token. -/
structure ShutdownState where
  shutdownFlag : Option ShutdownType
  cancelled : Bool
deriving DecidableEq

/-- `Runtime::shutdown` (`runtime.rs:444-476`).  If the `SHUTDOWN` slot is
already set, the call only awaits the existing cancellation
(`runtime.rs:445-449`): no further actions.  Otherwise it records the
reason, sends a shutdown message to the job scheduler and awaits the ack,
does the same for the chat-service client, and fires the cancellation
token.  The loaded plugins map (with each plugin's permission bits) is
passed as a parameter so that properties about plugin shutdown calls are
statable: the source never reads it here — no `call_shutdown` is invoked on
any plugin (the comment at `runtime.rs:473` defers that work), so the
parameter is unused. -/
def runtimeShutdown (_loadedPlugins : List (String × Nat))
    (st : ShutdownState) (ty : ShutdownType) :
    ShutdownState × List ShutdownAction :=
  if st.shutdownFlag.isSome then
    (st, [])
  else
    ({ shutdownFlag := some ty, cancelled := true },
      [.jobSchedulerStop, .discordClientStop, .cancelToken])

/-- The host-call surface a plugin can invoke. -/
inductive HostCall where
  | logCall
  | discordRequestCall
  | dependencyFunctionCall
  | shutdownHostCall
deriving DecidableEq

/-- `PluginBuilder::new` (`builder.rs:13-36`): one engine and one linker are
built for the whole process, and `Plugin::add_to_linker` wires the complete
host-function surface into that shared linker (`builder.rs:29-33`).  The
caller's permission bits are a parameter only to record that the wiring
does not depend on them: there is no per-plugin or permission-conditional
wiring anywhere in the source. -/
def linkedHostCalls (_permissions : Nat) : List HostCall :=
  [.logCall, .discordRequestCall, .dependencyFunctionCall, .shutdownHostCall]

/-- The `shutdown` host function (`internal.rs:51-56`): upgrade the weak
runtime reference and invoke `Runtime::shutdown` with the restart flag.
The body contains no permission check, and the WIT signature returns
nothing, so no error can be reported to the caller.  (The source hands the
boolean `restart` to `Runtime::shutdown`; it is rendered here as the
corresponding `Restart`/`Normal` reason.) -/
def hostShutdown (_callerPermissions : Nat) (restart : Bool)
    (loadedPlugins : List (String × Nat)) (st : ShutdownState) :
    ShutdownState × List ShutdownAction :=
  runtimeShutdown loadedPlugins st
    (if restart then .Restart else .Normal)

/-- The `dependency` host function (`internal.rs:100-142`).  A loaded
plugin's `dependency` export is modelled as a function from the function
name and parameter bytes to the plugin-level result.  The target plugin is
looked up in the runtime's plugins map; the source calls `.unwrap()` on the
lookup (`internal.rs:109`), so an unknown target is a panic, modelled as
`none`.  A plugin-returned error string is wrapped as at
`internal.rs:130-134`. -/
def hostDependency
    (plugins : List (String × (String → List Nat → Except String (List Nat))))
    (target : String) (functionName : String) (params : List Nat) :
    Option (Except String (List Nat)) :=
  match plugins.lookup target with
  | none => none
  | some callExport =>
    match callExport functionName params with
    | .ok bytes => some (.ok bytes)
    | .error e => some (.error ("The plugin returned an error: " ++ e))

/-! ## Registry resolution with caching (`registry.rs:46-224`) -/

/-- The fields of a deserialized `plugins.json` manifest that resolution
reads (`registry.rs:14-22`): the map from plugin id to its version list
(the other manifest fields are never consulted). -/
structure RegistryManifest where
  plugins : List (String × List RegistryPluginVersion)
deriving DecidableEq

/-- The external world a resolution run interacts with: per registry id,
the outcome of fetching and deserializing `plugins.json`
(`none` covers both an HTTP failure and a deserialization failure, which
the source treats alike by negative-caching the registry,
`registry.rs:190-221`), and per `(registry id, path)` whether a raw-file
fetch succeeds (`http/registry.rs`, out of scope as a collaborator). -/
structure RegistryWorld where
  manifest : String → Option RegistryManifest
  fileFetchOk : String → String → Bool

/-- One plugin's configuration entry, the fields `get_plugins` reads
(`ConfigPlugin`, `plugins.rs:15-23`): the reference string, the per-plugin
cache override, and the payload copied verbatim into the result. -/
structure PluginOptions where
  plugin : String
  cache : Option Bool
  permissions : Nat
  environment : Option (List (String × String))
  settings : Option String
deriving DecidableEq

/-- The resolved record (`AvailablePlugin`, `plugins.rs:81-87`): the
configured id, the selected version, and the payload copied from the
configuration. -/
structure AvailablePlugin where
  id : String
  version : String
  permissions : Nat
  environment : Option (List (String × String))
  settings : Option String
deriving DecidableEq

/-- The mutable state a resolution run threads: the in-memory registries
map (fresh per run, `registry.rs:55`; `none` is a negative cache entry),
the set of files present on disk, and counters of the HTTP fetches
performed, split into manifest fetches (`plugins.json`) and artifact
fetches (`metadata.json`, `plugin.wasm`). -/
structure ResolveState where
  regCache : List (String × Option RegistryManifest)
  disk : List String
  manifestFetches : Nat
  artifactFetches : Nat

/-- The registry block of one per-plugin task (`registry.rs:69-79` with
`fetch_registry`, `registry.rs:182-224`): when the registry id is not yet
in the in-memory map, fetch and deserialize `plugins.json` and cache the
outcome — a negative entry on failure, so repeat references do not
re-fetch. -/
def ensureRegistryFetched (world : RegistryWorld) (st : ResolveState)
    (registryId : String) : ResolveState :=
  if (st.regCache.lookup registryId).isSome then st
  else
    { st with
      regCache := (registryId, world.manifest registryId) :: st.regCache,
      manifestFetches := st.manifestFetches + 1 }

/-- One spawned per-plugin task of `get_plugins` (`registry.rs:65-147`):
parse the reference; run the registry block; look the plugin up in the
manifest — by the configured id, as the source does at `registry.rs:82`;
select a version; then either hit the disk cache (`registry.rs:99-107`) or
download `metadata.json` and `plugin.wasm` and write them under
`<plugin_registry_id>/<version>/` (`registry.rs:109-138`; the fetch paths
concatenate without a separator exactly as the source does; filesystem
writes are modelled as always succeeding). -/
def resolvePluginTask (hostVersion : String) (world : RegistryWorld)
    (globalCache : Bool) (st : ResolveState) (pluginId : String)
    (opts : PluginOptions) : Option AvailablePlugin × ResolveState :=
  let parsed := parse_plugin_string opts.plugin
  let registryId := parsed.1
  let pluginRegistryId := parsed.2.1
  let requestedVersion := parsed.2.2
  let st1 := ensureRegistryFetched world st registryId
  match st1.regCache.lookup registryId with
  | none => (none, st1)
  | some none => (none, st1)
  | some (some registry) =>
    match registry.plugins.lookup pluginId with
    | none => (none, st1)
    | some versions =>
      match find_plugin_version_match hostVersion requestedVersion
          versions with
      | none => (none, st1)
      | some version =>
        let pluginBase := pluginRegistryId ++ "/" ++ version
        let wasmPath := pluginBase ++ "/plugin.wasm"
        let avail : AvailablePlugin :=
          { id := pluginId, version := version,
            permissions := opts.permissions,
            environment := opts.environment, settings := opts.settings }
        if opts.cache.getD globalCache && st1.disk.contains wasmPath then
          (some avail, st1)
        else if world.fileFetchOk registryId
            (pluginBase ++ "metadata.json") = false then
          (none, { st1 with artifactFetches := st1.artifactFetches + 1 })
        else if world.fileFetchOk registryId
            (pluginBase ++ "plugin.wasm") = false then
          (none,
            { st1 with
              artifactFetches := st1.artifactFetches + 2,
              disk := st1.disk ++ [pluginBase ++ "/metadata.json"] })
        else
          (some avail,
            { st1 with
              artifactFetches := st1.artifactFetches + 2,
              disk :=
                st1.disk ++ [pluginBase ++ "/metadata.json", wasmPath] })

/-- Joining one task and pushing its result if successful
(`registry.rs:150-154`). -/
def resolveStep (hostVersion : String) (world : RegistryWorld)
    (globalCache : Bool) (acc : List AvailablePlugin × ResolveState)
    (e : String × PluginOptions) : List AvailablePlugin × ResolveState :=
  match resolvePluginTask hostVersion world globalCache acc.2 e.1 e.2 with
  | (some a, st) => (acc.1 ++ [a], st)
  | (none, st) => (acc.1, st)

/-- `get_plugins` (`registry.rs:46-157`): one task per configuration entry.
The source spawns the tasks concurrently and joins them in spawn order
(`registry.rs:150-154`), pushing each successful result as its task is
joined; the run is modelled as the sequential in-order interleaving, under
which the result list is the successful resolutions in configuration
order.  Every run starts with an empty in-memory registries map
(`registry.rs:55`). -/
def get_plugins (hostVersion : String) (world : RegistryWorld)
    (globalCache : Bool) (disk : List String)
    (config : List (String × PluginOptions)) :
    List AvailablePlugin × ResolveState :=
  config.foldl (resolveStep hostVersion world globalCache)
    ([], { regCache := [], disk := disk, manifestFetches := 0,
           artifactFetches := 0 })

/-- The hypothesis of the cache-idempotence property, per configuration
entry: its registry's manifest fetch succeeds, the configured id is in the
manifest, a version resolves, caching is effective for the entry, and the
resolved `plugin.wasm` is already on disk (the condition of
`registry.rs:99`). -/
def cacheHitEntry (hostVersion : String) (world : RegistryWorld)
    (globalCache : Bool) (disk : List String)
    (e : String × PluginOptions) : Prop :=
  ∃ reg versions version,
    world.manifest (parse_plugin_string e.2.plugin).1 = some reg ∧
    reg.plugins.lookup e.1 = some versions ∧
    find_plugin_version_match hostVersion
      (parse_plugin_string e.2.plugin).2.2 versions = some version ∧
    e.2.cache.getD globalCache = true ∧
    disk.contains
      ((parse_plugin_string e.2.plugin).2.1 ++ "/" ++ version ++
        "/plugin.wasm") = true

/-- Agreement between the in-memory registries map and the world: every
cached entry (positive or negative) is exactly what fetching that registry
would produce.  `get_plugins` maintains this because entries are only ever
created from fetch results (`registry.rs:196-217`). -/
def regCacheAgrees (world : RegistryWorld)
    (cache : List (String × Option RegistryManifest)) : Prop :=
  ∀ rid m, cache.lookup rid = some m → m = world.manifest rid

/-- Every plugin id recorded anywhere in the registration store is a key of
the runtime's plugins map (whose key list is `loaded`). -/
def storeCovered (loaded : List String) (store : RegistrationsStore) :
    Prop :=
  (∀ pid ∈ store.message_create, pid ∈ loaded) ∧
  (∀ pid ∈ store.thread_create, pid ∈ loaded) ∧
  (∀ pid ∈ store.thread_delete, pid ∈ loaded) ∧
  (∀ pid ∈ store.thread_list_sync, pid ∈ loaded) ∧
  (∀ pid ∈ store.thread_member_update, pid ∈ loaded) ∧
  (∀ pid ∈ store.thread_members_update, pid ∈ loaded) ∧
  (∀ pid ∈ store.thread_update, pid ∈ loaded) ∧
  (∀ cid pid, store.message_components cid = some pid → pid ∈ loaded) ∧
  (∀ cid pid, store.modals cid = some pid → pid ∈ loaded) ∧
  (∀ pid, (store.dependency_functions pid).isSome = true → pid ∈ loaded)

/-- Every plugin id tagged on a forwarded application-command or
scheduled-job request is a key of the runtime's plugins map. -/
def fwdCovered (loaded : List String) (fwd : ForwardedRequests) : Prop :=
  (∀ r ∈ fwd.application_commands, r.1 ∈ loaded) ∧
  (∀ r ∈ fwd.scheduled_jobs, r.1 ∈ loaded)

/-! ## Concrete inputs used by counterexamples and witnesses -/

/-- A manifest whose only version entry is deprecated but prefix-compatible
with host version `0.1.0`. -/
def deprecatedOnlyVersions : List RegistryPluginVersion :=
  [{ version := "1.0.0", deprecated := some (true, "superseded"),
     compatible_program_version := "0" }]

/-- Two plugins, `a` then `b`, each requesting a global command named
`ping`. -/
def pingRequests : List CommandRegistration :=
  [{ plugin_id := "a", internal_id := "hi", name := "ping",
     guild_id := none },
   { plugin_id := "b", internal_id := "hi2", name := "ping",
     guild_id := none }]

/-- A registration request subscribing to message-create events, exporting
one dependency function, and registering one command, one custom id and one
scheduled job. -/
def sampleRegs : RegistrationRequest where
  message_create := true
  thread_create := false
  thread_delete := false
  thread_list_sync := false
  thread_member_update := false
  thread_members_update := false
  thread_update := false
  application_commands := [("hi", [1, 2])]
  message_components := [("open-ticket" : String)]
  modals := []
  scheduled_jobs := [("job", ["0 0 * * * *"])]
  dependency_functions := ["hello"]

/-- The version list of plugin `p` in the concrete cache-hit scenario: one
compatible, non-deprecated version. -/
def cacheVersions : List RegistryPluginVersion :=
  [{ version := "1.0.0", deprecated := none,
     compatible_program_version := "0" }]

/-- The manifest of the default registry in the concrete cache-hit
scenario. -/
def cacheManifest : RegistryManifest where
  plugins := [("p", cacheVersions)]

/-- A single-registry world for the cache-idempotence claim: the default
registry's manifest lists plugin `p` with one compatible version, and every
raw-file fetch succeeds. -/
def cacheWorld : RegistryWorld where
  manifest := fun rid =>
    if rid = DEFAULT_REGISTRY_ID then some cacheManifest else none
  fileFetchOk := fun _ _ => true

/-- A one-plugin configuration referencing `p` from the default registry at
the latest version, with no per-plugin cache override. -/
def cacheConfig : List (String × PluginOptions) :=
  [("p", { plugin := "p", cache := none, permissions := 0,
           environment := none, settings := none })]

/-- The disk after a first successful run: `p`'s artifact is present. -/
def cacheDisk : List String :=
  ["p/1.0.0/metadata.json", "p/1.0.0/plugin.wasm"]

/-! ## Helper lemmas -/

theorem customIdsFold_lookup (store : String → Option String)
    (pluginId : String) (customIds : List String) (k : String) :
    (registerCustomIds store pluginId customIds).1 k =
      if customIds.contains k then some pluginId else store k := by
  unfold registerCustomIds
  induction customIds generalizing store with
  | nil => simp
  | cons c cs ih =>
    rw [List.foldl_cons, ih]
    by_cases hk : k ∈ cs
    · simp [hk, List.contains_cons]
    · by_cases hck : k = c <;> simp [hk, hck, List.contains_cons]

theorem registerCustomIds_snd (store : String → Option String)
    (pluginId : String) (customIds : List String) :
    (registerCustomIds store pluginId customIds).2 = [] := rfl

theorem registerAllFold_spec (plugins : List (String × List String))
    (m : String → Option String) (w : List String) (k : String) :
    ((plugins.foldl
        (fun acc p =>
          ((registerCustomIds acc.1 p.1 p.2).1,
            acc.2 ++ (registerCustomIds acc.1 p.1 p.2).2))
        (m, w)).1 k =
      (match plugins.reverse.find? (fun p => p.2.contains k) with
       | some p => some p.1
       | none => m k)) ∧
    (plugins.foldl
        (fun acc p =>
          ((registerCustomIds acc.1 p.1 p.2).1,
            acc.2 ++ (registerCustomIds acc.1 p.1 p.2).2))
        (m, w)).2 = w := by
  induction plugins generalizing m w with
  | nil => simp
  | cons p ps ih =>
    rw [List.foldl_cons]
    have h := ih ((registerCustomIds m p.1 p.2).1)
      (w ++ (registerCustomIds m p.1 p.2).2)
    refine ⟨?_, ?_⟩
    · rw [h.1, List.reverse_cons, List.find?_append]
      cases hfind : ps.reverse.find? (fun p => p.2.contains k) with
      | some q => simp [hfind]
      | none =>
        simp only [hfind, Option.none_or]
        rw [customIdsFold_lookup]
        by_cases hm : k ∈ p.2 <;> simp [List.find?, hm]
    · rw [h.2, registerCustomIds_snd, List.append_nil]

theorem depFold_lookup_ne (m : String → Option (List String))
    (pluginId : String) (fns : List String) (k : String) (hk : k ≠ pluginId) :
    insertDependencyFunctions m pluginId fns k = m k := by
  unfold insertDependencyFunctions
  induction fns generalizing m with
  | nil => rfl
  | cons f fs ih =>
    rw [List.foldl_cons, ih]
    simp [hk]

theorem depFold_isSome (m : String → Option (List String))
    (pluginId : String) (fns : List String) (k : String)
    (h : (insertDependencyFunctions m pluginId fns k).isSome = true) :
    k = pluginId ∨ (m k).isSome = true := by
  by_cases hk : k = pluginId
  · exact Or.inl hk
  · right
    rw [depFold_lookup_ne m pluginId fns k hk] at h
    exact h

/-! ## C1 -/

/-- Claim C1 is false on the code: when exactly two plugins declare a
global command named `ping`, the registration step forwards `ping~1` and
`ping~2` — the first occurrence is also renamed, not kept un-suffixed as
the claim states (`interactions.rs:236-240` applies the `~N` counter to
every entry of a colliding bucket, starting at 1). -/
theorem C1_counterexample :
    registeredNames (commandGroup pingRequests none "ping") =
      ["ping~1", "ping~2"] ∧
    registeredNames (commandGroup pingRequests none "ping") ≠
      ["ping", "ping~1"] := ⟨by decide, by decide⟩

/-- Claim C1 (amended): in a startup registration pass, a command name
declared by exactly one plugin (in a guild or globally) is forwarded under
its original name, and when two or more plugins declare the same name,
every occurrence — including the first — is renamed to `name~N`, with `N`
counting from 1 in initialization order; in particular two `ping`
declarations are forwarded as `ping~1` and `ping~2`. -/
theorem C1_collision_suffixes_all (entries : List CommandRegistration)
    (i : Nat) (r : CommandRegistration) (h : entries[i]? = some r) :
    (registeredNames entries)[i]? =
      some (if entries.length = 1 then r.name
            else r.name ++ "~" ++ toString (i + 1)) := by
  unfold registeredNames
  by_cases hlen : entries.length = 1
  · simp [hlen, List.getElem?_map, h]
  · simp [hlen, List.getElem?_map, List.getElem?_enum, h]

/-- Witness for the amended claim C1 at a concrete input: the first of the
two `ping` declarations is forwarded as `ping~1`. -/
theorem C1_collision_suffixes_all_witness :
    (registeredNames (commandGroup pingRequests none "ping"))[0]? =
      some "ping~1" := by
  have h := C1_collision_suffixes_all (commandGroup pingRequests none "ping")
    0 { plugin_id := "a", internal_id := "hi", name := "ping",
        guild_id := none } (by decide)
  rw [h]
  decide

/-! ## C3 -/

/-- Claim C3 describes the intended behaviour, but the code panics: the
`dependency` host call looks the target plugin up with `.unwrap()`
(`internal.rs:109`), so a target id that is not a key of the plugins map is
a panic (`none` here), not an `Err` returned to the caller; a loaded target
behaves normally. -/
theorem C3_unknown_dependency_panics :
    hostDependency [] "b" "hello" [] = none ∧
    hostDependency [("b", fun _ params => .ok params)] "b" "hello" [1, 2] =
      some (.ok [1, 2]) := ⟨rfl, rfl⟩

/-! ## C5 -/

/-- Claim C5 is false on the code: a manifest whose requested explicit
version `1.0.0` exists, whose compatibility entry `"0"` is a prefix of host
version `0.1.0`, and which is marked deprecated, is nevertheless rejected —
resolution returns no version instead of accepting it with a warning
(`check_plugin_version_usability` refuses every deprecated entry,
`registry.rs:249-256`, and the explicit branch requires usability,
`registry.rs:237-243`). -/
theorem C5_counterexample :
    deprecatedOnlyVersions.find? (fun v => v.version == "1.0.0") =
      some { version := "1.0.0", deprecated := some (true, "superseded"),
             compatible_program_version := "0" } ∧
    ("0" : String) = ("0.1.0" : String).take 1 ∧
    deprecatedFlag
      { version := "1.0.0", deprecated := some (true, "superseded"),
        compatible_program_version := "0" } = true ∧
    find_plugin_version_match "0.1.0" "1.0.0" deprecatedOnlyVersions ≠
      some "1.0.0" := ⟨by decide, by decide, by decide, by decide⟩

/-- Claim C5 (amended): explicit version selection matches the manifest
entry by exact version string, but a deprecated entry is rejected rather
than accepted: whenever the exact match is deprecated, resolution returns
no version (the source only logs a debug message,
`registry.rs:252-255`). -/
theorem C5_explicit_deprecated_rejected (hostVersion requested : String)
    (versions : List RegistryPluginVersion) (v : RegistryPluginVersion)
    (hreq : requested ≠ "latest")
    (hfind : versions.find? (fun u => u.version == requested) = some v)
    (hdep : deprecatedFlag v = true) :
    find_plugin_version_match hostVersion requested versions = none := by
  unfold find_plugin_version_match
  rw [if_neg hreq, hfind]
  simp [check_plugin_version_usability, hdep]

/-- Witness for the amended claim C5 at a concrete input: the deprecated
explicit version `1.0.0` is rejected. -/
theorem C5_explicit_deprecated_rejected_witness :
    find_plugin_version_match "0.1.0" "1.0.0" deprecatedOnlyVersions =
      none :=
  C5_explicit_deprecated_rejected "0.1.0" "1.0.0" deprecatedOnlyVersions
    { version := "1.0.0", deprecated := some (true, "superseded"),
      compatible_program_version := "0" }
    (by decide) (by decide) (by decide)

/-! ## C7 -/

/-- Claim C7 is false on the code: when plugins `a` and then `b` register
the same custom id `x`, the store does map `x` to the later-initialized
plugin `b` (last-writer-wins), but no warning is logged — the collision is
silent (the registration loop at `runtime.rs:239-254` has no logging
statement, only the comment `TODO: Prevent duplicate entries`), so the
claimed warning part fails. -/
theorem C7_counterexample :
    (registerAllCustomIds [("a", ["x"]), ("b", ["x"])]).1 "x" = some "b" ∧
    (registerAllCustomIds [("a", ["x"]), ("b", ["x"])]).2 = [] :=
  ⟨rfl, rfl⟩

/-- Claim C7 (amended): for every sequence of plugins registering custom
ids during one startup pass, the store maps each custom id to the last
plugin in initialization order that registered it (last-writer-wins), and
no warning is emitted about collisions. -/
theorem C7_last_writer_wins_silent (plugins : List (String × List String))
    (cid : String) :
    (registerAllCustomIds plugins).1 cid =
      (plugins.reverse.find? (fun p => p.2.contains cid)).map Prod.fst ∧
    (registerAllCustomIds plugins).2 = [] := by
  have h := registerAllFold_spec plugins emptyStringMap [] cid
  unfold registerAllCustomIds
  refine ⟨?_, h.2⟩
  rw [h.1]
  cases hf : plugins.reverse.find? (fun p => p.2.contains cid) <;>
    simp [hf, emptyStringMap]

/-! ## C8 -/

/-- Claim C8 describes the intended behaviour, but the code panics: when a
plugin's `plugin.wasm` cannot be read from disk, `initialize_plugins`
panics through the `.unwrap()` at `runtime.rs:104` instead of skipping the
plugin — so a subsequent plugin that would initialize successfully is never
reached. -/
theorem C8_artifact_read_panic :
    plugin_initializations [("p", .readFailed), ("q", .initOk sampleRegs)]
      [] emptyRegistrationsStore emptyForwardedRequests = .panicked := rfl

/-! ## C2 -/

/-- Claim C2 is false on the code: a plugin whose permission bits do not
include `Shutdown` (permissions 0) still has the `shutdown` host call wired
(the linker wires the full host surface for every plugin,
`builder.rs:29-33`), and its invocation initiates the host stop sequence —
the state records a shutdown reason and the stop actions are emitted; no
error is returned to the plugin. -/
theorem C2_counterexample :
    Nat.land 0 SupportedRegistrations.SHUTDOWN = 0 ∧
    HostCall.shutdownHostCall ∈ linkedHostCalls 0 ∧
    (hostShutdown 0 false [("caller", 0)]
        { shutdownFlag := none, cancelled := false }).1.shutdownFlag =
      some ShutdownType.Normal ∧
    (hostShutdown 0 false [("caller", 0)]
        { shutdownFlag := none, cancelled := false }).2 ≠ [] :=
  ⟨rfl, by decide, rfl, by decide⟩

/-- Claim C2 (amended): the `shutdown` host call is wired for every plugin
regardless of its configured permissions, and an invocation by any plugin —
with or without the `Shutdown` capability — initiates the host stop
sequence whenever one is not already running; the call has no result value,
so no error reaches the plugin (`internal.rs:51-56` contains no permission
check). -/
theorem C2_shutdown_unrestricted (permissions : Nat) (restart : Bool)
    (loadedPlugins : List (String × Nat)) (st : ShutdownState)
    (h : st.shutdownFlag = none) :
    HostCall.shutdownHostCall ∈ linkedHostCalls permissions ∧
    (hostShutdown permissions restart loadedPlugins st).1.shutdownFlag =
      some (if restart then ShutdownType.Restart else ShutdownType.Normal) ∧
    (hostShutdown permissions restart loadedPlugins st).2 =
      [.jobSchedulerStop, .discordClientStop, .cancelToken] := by
  unfold hostShutdown runtimeShutdown linkedHostCalls
  simp [h]

/-- Witness for the amended claim C2 at a concrete input: a plugin with no
capability bits initiates the stop sequence through the `shutdown` host
call. -/
theorem C2_shutdown_unrestricted_witness :
    HostCall.shutdownHostCall ∈ linkedHostCalls 0 ∧
    (hostShutdown 0 true [("caller", 0)]
        { shutdownFlag := none, cancelled := false }).1.shutdownFlag =
      some (if true then ShutdownType.Restart else ShutdownType.Normal) ∧
    (hostShutdown 0 true [("caller", 0)]
        { shutdownFlag := none, cancelled := false }).2 =
      [.jobSchedulerStop, .discordClientStop, .cancelToken] :=
  C2_shutdown_unrestricted 0 true [("caller", 0)]
    { shutdownFlag := none, cancelled := false } rfl

/-! ## C4 -/

/-- Claim C4 describes the intended behaviour, but the code omits the
plugin shutdown calls: the stop sequence acknowledges the cron engine and
the chat-service collaborator and then fires the cancellation token without
ever invoking `call_shutdown` on any loaded plugin — even one with the
`Shutdown` capability (the work is deferred by the comment at
`runtime.rs:473`, and `Runtime::call_shutdown` has no caller). -/
theorem C4_stop_sequence_misses_plugins :
    (runtimeShutdown [("p", SupportedRegistrations.SHUTDOWN)]
        { shutdownFlag := none, cancelled := false } .SigInt).2 =
      [.jobSchedulerStop, .discordClientStop, .cancelToken] ∧
    (runtimeShutdown [("p", SupportedRegistrations.SHUTDOWN)]
        { shutdownFlag := none, cancelled := false } .SigInt).2.filter
      (fun a =>
        match a with
        | .pluginShutdownCall _ => true
        | _ => false) = [] ∧
    (runtimeShutdown [("p", SupportedRegistrations.SHUTDOWN)]
        { shutdownFlag := none, cancelled := false } .SigInt).1.cancelled =
      true := ⟨rfl, rfl, rfl⟩

/-! ## C10 -/

theorem parse_of_capabilityNames (s n : String) (b : Nat)
    (hmem : (n, b) ∈ capabilityNames) (hup : toUpperAscii s = n) :
    parseSupportedRegistration s = some b := by
  unfold parseSupportedRegistration
  rw [hup]
  fin_cases hmem <;> rfl

theorem deserialize_fold_union (strings : List String) (caps : List Nat)
    (h : List.Forall₂
      (fun s b => parseSupportedRegistration s = some b) strings caps)
    (a : Nat) :
    strings.foldl
      (fun acc s =>
        match acc, parseSupportedRegistration s with
        | some x, some y => some (x ||| y)
        | _, _ => none)
      (some a) = some (caps.foldl (· ||| ·) a) := by
  induction h generalizing a with
  | nil => rfl
  | cons hp _ ih =>
    rw [List.foldl_cons, List.foldl_cons, hp]
    exact ih _

/-- Claim C10: permission names in the configuration are matched
case-insensitively — each supplied string is uppercased before comparison
with the capability names — so every list of strings that are case variants
of known capability names parses successfully to exactly the bitwise union
of the named capability bits (`plugins.rs:31-79`). -/
theorem C10_case_insensitive_union (strings : List String)
    (caps : List Nat)
    (h : List.Forall₂
      (fun s b => ∃ n, (n, b) ∈ capabilityNames ∧ toUpperAscii s = n)
      strings caps) :
    deserializeSupportedRegistrations strings =
      some (caps.foldl (· ||| ·) 0) := by
  refine deserialize_fold_union strings caps (h.imp ?_) 0
  rintro s b ⟨n, hmem, hup⟩
  exact parse_of_capabilityNames s n b hmem hup

/-- Witness for claim C10 at a concrete input: `shutdown` and
`Dependency_Functions` parse to the union `512 ||| 1 = 513`. -/
theorem C10_case_insensitive_union_witness :
    deserializeSupportedRegistrations ["shutdown", "Dependency_Functions"] =
      some 513 := by
  have h := C10_case_insensitive_union ["shutdown", "Dependency_Functions"]
    [SupportedRegistrations.SHUTDOWN,
      SupportedRegistrations.DEPENDENCY_FUNCTIONS]
    (List.Forall₂.cons ⟨"SHUTDOWN", by decide, by decide⟩
      (List.Forall₂.cons ⟨"DEPENDENCY_FUNCTIONS", by decide, by decide⟩
        List.Forall₂.nil))
  rw [h]
  decide

/-! ## C9 -/

theorem storeCovered_empty : storeCovered [] emptyRegistrationsStore := by
  refine ⟨?_, ?_, ?_, ?_, ?_, ?_, ?_, ?_, ?_, ?_⟩ <;>
    simp [emptyRegistrationsStore, emptyStringMap]

theorem fwdCovered_empty : fwdCovered [] emptyForwardedRequests := by
  constructor <;> simp [emptyForwardedRequests]

theorem listCovered_push (loaded : List String) (pluginId : String)
    (l : List String) (b : Bool) (h : ∀ x ∈ l, x ∈ loaded) :
    ∀ x ∈ (if b then l ++ [pluginId] else l), x ∈ pluginId :: loaded := by
  intro x hx
  cases b with
  | false => exact List.mem_cons_of_mem _ (h x hx)
  | true =>
    rcases List.mem_append.mp hx with hx | hx
    · exact List.mem_cons_of_mem _ (h x hx)
    · simp at hx
      simp [hx]

theorem storeCovered_apply (loaded : List String) (pluginId : String)
    (regs : RegistrationRequest) (store : RegistrationsStore)
    (h : storeCovered loaded store) :
    storeCovered (pluginId :: loaded)
      (applyRegistrations pluginId regs store) := by
  obtain ⟨h1, h2, h3, h4, h5, h6, h7, h8, h9, h10⟩ := h
  refine ⟨?_, ?_, ?_, ?_, ?_, ?_, ?_, ?_, ?_, ?_⟩
  · exact listCovered_push loaded pluginId _ _ h1
  · exact listCovered_push loaded pluginId _ _ h2
  · exact listCovered_push loaded pluginId _ _ h3
  · exact listCovered_push loaded pluginId _ _ h4
  · exact listCovered_push loaded pluginId _ _ h5
  · exact listCovered_push loaded pluginId _ _ h6
  · exact listCovered_push loaded pluginId _ _ h7
  · intro cid pid hpid
    rw [show (applyRegistrations pluginId regs store).message_components =
        (registerCustomIds store.message_components pluginId
          regs.message_components).1 from rfl,
      customIdsFold_lookup] at hpid
    by_cases hc : regs.message_components.contains cid
    · rw [if_pos hc] at hpid
      cases hpid
      exact List.mem_cons_self _ _
    · rw [if_neg hc] at hpid
      exact List.mem_cons_of_mem _ (h8 cid pid hpid)
  · intro cid pid hpid
    rw [show (applyRegistrations pluginId regs store).modals =
        (registerCustomIds store.modals pluginId regs.modals).1 from rfl,
      customIdsFold_lookup] at hpid
    by_cases hc : regs.modals.contains cid
    · rw [if_pos hc] at hpid
      cases hpid
      exact List.mem_cons_self _ _
    · rw [if_neg hc] at hpid
      exact List.mem_cons_of_mem _ (h9 cid pid hpid)
  · intro pid hpid
    rcases depFold_isSome store.dependency_functions pluginId
        regs.dependency_functions pid hpid with hne | hold
    · simp [hne]
    · exact List.mem_cons_of_mem _ (h10 pid hold)

theorem fwdCovered_apply (loaded : List String) (pluginId : String)
    (regs : RegistrationRequest) (fwd : ForwardedRequests)
    (h : fwdCovered loaded fwd) :
    fwdCovered (pluginId :: loaded) (applyForwarded pluginId regs fwd) := by
  obtain ⟨h1, h2⟩ := h
  constructor
  · intro r hr
    rcases List.mem_append.mp hr with hr | hr
    · exact List.mem_cons_of_mem _ (h1 r hr)
    · rcases List.mem_map.mp hr with ⟨c, _, rfl⟩
      exact List.mem_cons_self _ _
  · intro r hr
    rcases List.mem_append.mp hr with hr | hr
    · exact List.mem_cons_of_mem _ (h2 r hr)
    · rcases List.mem_map.mp hr with ⟨c, _, rfl⟩
      exact List.mem_cons_self _ _

theorem plugin_initializations_covered
    (plugins : List (String × PluginLoadResult)) :
    ∀ loaded store fwd loadedF storeF fwdF,
      storeCovered loaded store → fwdCovered loaded fwd →
      plugin_initializations plugins loaded store fwd =
        .ok loadedF storeF fwdF →
      storeCovered loadedF storeF ∧ fwdCovered loadedF fwdF := by
  induction plugins with
  | nil =>
    intro loaded store fwd loadedF storeF fwdF hs hf heq
    rw [plugin_initializations.eq_def] at heq
    cases heq
    exact ⟨hs, hf⟩
  | cons p ps ih =>
    intro loaded store fwd loadedF storeF fwdF hs hf heq
    rw [plugin_initializations.eq_def] at heq
    rcases p with ⟨pluginId, res⟩
    cases res with
    | readFailed => cases heq
    | workspaceCheckFailed => cases heq
    | compileFailed => exact ih _ _ _ _ _ _ hs hf heq
    | instantiateFailed => exact ih _ _ _ _ _ _ hs hf heq
    | initFailed => exact ih _ _ _ _ _ _ hs hf heq
    | initOk regs =>
      exact ih _ _ _ _ _ _
        (storeCovered_apply loaded pluginId regs store hs)
        (fwdCovered_apply loaded pluginId regs fwd hf) heq

/-- Claim C9: whenever `initialize_plugins` returns normally from the
empty runtime map and empty store, every plugin id appearing in any event
subscriber list, in the custom-id maps for message components and modals,
in the dependency-function map, or on a forwarded application-command or
scheduled-job request, is a key of the runtime's plugins map — a plugin
that failed compilation, instantiation, or its initialization export
contributes no registrations. -/
theorem C9_registrations_within_loaded
    (plugins : List (String × PluginLoadResult)) (loadedF : List String)
    (storeF : RegistrationsStore) (fwdF : ForwardedRequests)
    (h : plugin_initializations plugins [] emptyRegistrationsStore
      emptyForwardedRequests = .ok loadedF storeF fwdF) :
    storeCovered loadedF storeF ∧ fwdCovered loadedF fwdF :=
  plugin_initializations_covered plugins [] emptyRegistrationsStore
    emptyForwardedRequests loadedF storeF fwdF storeCovered_empty
    fwdCovered_empty h

/-- Witness for claim C9 at a concrete input: one plugin initializes
successfully and one fails its initialization export; all registrations
name the loaded plugin. -/
theorem C9_registrations_within_loaded_witness :
    storeCovered ["p"]
      (applyRegistrations "p" sampleRegs emptyRegistrationsStore) ∧
    fwdCovered ["p"]
      (applyForwarded "p" sampleRegs emptyForwardedRequests) :=
  C9_registrations_within_loaded
    [("p", .initOk sampleRegs), ("q", .initFailed)] ["p"]
    (applyRegistrations "p" sampleRegs emptyRegistrationsStore)
    (applyForwarded "p" sampleRegs emptyForwardedRequests) rfl

/-! ## C6 -/

theorem ensureRegistryFetched_spec (world : RegistryWorld)
    (st : ResolveState) (registryId : String)
    (hagree : regCacheAgrees world st.regCache) :
    (ensureRegistryFetched world st registryId).regCache.lookup registryId =
      some (world.manifest registryId) ∧
    regCacheAgrees world
      (ensureRegistryFetched world st registryId).regCache ∧
    (ensureRegistryFetched world st registryId).disk = st.disk ∧
    (ensureRegistryFetched world st registryId).artifactFetches =
      st.artifactFetches := by
  unfold ensureRegistryFetched
  by_cases hc : (st.regCache.lookup registryId).isSome
  · rw [if_pos hc]
    obtain ⟨m, hm⟩ := Option.isSome_iff_exists.mp hc
    exact ⟨by rw [hm, hagree registryId m hm], hagree, rfl, rfl⟩
  · rw [if_neg hc]
    refine ⟨by simp [List.lookup], ?_, rfl, rfl⟩
    intro rid m hm
    by_cases hr : rid = registryId
    · subst hr
      simp [List.lookup] at hm
      exact hm.symm
    · have hbeq : (rid == registryId) = false := by simp [hr]
      simp only [List.lookup, hbeq] at hm
      exact hagree rid m hm

theorem resolvePluginTask_cacheHit_eq (hostVersion : String)
    (world : RegistryWorld) (globalCache : Bool) (st : ResolveState)
    (pluginId : String) (opts : PluginOptions) (reg : RegistryManifest)
    (versions : List RegistryPluginVersion) (version : String)
    (hagree : regCacheAgrees world st.regCache)
    (hman : world.manifest (parse_plugin_string opts.plugin).1 = some reg)
    (hlook : reg.plugins.lookup pluginId = some versions)
    (hfind : find_plugin_version_match hostVersion
      (parse_plugin_string opts.plugin).2.2 versions = some version)
    (hcache : opts.cache.getD globalCache = true)
    (hdisk : st.disk.contains
      ((parse_plugin_string opts.plugin).2.1 ++ "/" ++ version ++
        "/plugin.wasm") = true) :
    resolvePluginTask hostVersion world globalCache st pluginId opts =
      (some { id := pluginId, version := version,
              permissions := opts.permissions,
              environment := opts.environment, settings := opts.settings },
        ensureRegistryFetched world st
          (parse_plugin_string opts.plugin).1) := by
  obtain ⟨hreg, _, hdisk1, _⟩ :=
    ensureRegistryFetched_spec world st
      (parse_plugin_string opts.plugin).1 hagree
  unfold resolvePluginTask
  dsimp only
  rw [hreg, hman]
  dsimp only
  rw [hlook]
  dsimp only
  rw [hfind]
  dsimp only
  rw [hdisk1, hcache, hdisk]
  simp

theorem get_plugins_fold_cacheHits (hostVersion : String)
    (world : RegistryWorld) (globalCache : Bool)
    (config : List (String × PluginOptions)) :
    ∀ (acc : List AvailablePlugin) (st : ResolveState),
      regCacheAgrees world st.regCache →
      (∀ e ∈ config,
        cacheHitEntry hostVersion world globalCache st.disk e) →
      (config.foldl (resolveStep hostVersion world globalCache)
          (acc, st)).2.disk = st.disk ∧
      (config.foldl (resolveStep hostVersion world globalCache)
          (acc, st)).2.artifactFetches = st.artifactFetches := by
  induction config with
  | nil => exact fun acc st _ _ => ⟨rfl, rfl⟩
  | cons e es ih =>
    intro acc st hagree hhits
    rw [List.foldl_cons]
    obtain ⟨reg, versions, version, hman, hlook, hfind, hcache, hdisk⟩ :=
      hhits e (List.mem_cons_self e es)
    have hstep : resolveStep hostVersion world globalCache (acc, st) e =
        (acc ++ [{ id := e.1, version := version,
                   permissions := e.2.permissions,
                   environment := e.2.environment,
                   settings := e.2.settings }],
          ensureRegistryFetched world st
            (parse_plugin_string e.2.plugin).1) := by
      unfold resolveStep
      rw [resolvePluginTask_cacheHit_eq hostVersion world globalCache st
        e.1 e.2 reg versions version hagree hman hlook hfind hcache hdisk]
    rw [hstep]
    obtain ⟨_, hagree1, hdisk1, hart1⟩ :=
      ensureRegistryFetched_spec world st
        (parse_plugin_string e.2.plugin).1 hagree
    have hrec := ih
      (acc ++ [{ id := e.1, version := version,
                 permissions := e.2.permissions,
                 environment := e.2.environment,
                 settings := e.2.settings }])
      (ensureRegistryFetched world st (parse_plugin_string e.2.plugin).1)
      hagree1
      (by
        intro e2 he2
        rw [hdisk1]
        exact hhits e2 (List.mem_cons_of_mem e he2))
    exact ⟨by rw [hrec.1, hdisk1], by rw [hrec.2, hart1]⟩

/-- Claim C6 is false on the code: with caching enabled and the resolved
`plugin.wasm` already on disk, a repeated resolution run reproduces the
same `AvailablePlugin` list and downloads no artifacts, but it still
performs one registry HTTP fetch — `plugins.json` is re-fetched because the
registries cache is in-memory and fresh for every run (`registry.rs:55`,
`registry.rs:69-79`), so the claimed zero total fetches fails. -/
theorem C6_counterexample :
    (get_plugins "0.1.0" cacheWorld true cacheDisk cacheConfig).1 =
      [{ id := "p", version := "1.0.0", permissions := 0,
         environment := none, settings := none }] ∧
    (get_plugins "0.1.0" cacheWorld true cacheDisk
        cacheConfig).2.artifactFetches = 0 ∧
    (get_plugins "0.1.0" cacheWorld true cacheDisk cacheConfig).2.disk =
      cacheDisk ∧
    (get_plugins "0.1.0" cacheWorld true cacheDisk
        cacheConfig).2.manifestFetches = 1 :=
  ⟨by decide, by decide, by decide, by decide⟩

/-- Claim C6 (amended): for every configuration whose entries all resolve
against their registry manifests with caching effective and the resolved
`plugin.wasm` artifacts already on disk, the run performs zero artifact
fetches (`metadata.json`, `plugin.wasm`), leaves the disk unchanged, and a
repeated run from the resulting disk returns an identical result — but
`plugins.json` is still fetched per referenced registry, since the manifest
cache does not survive a run. -/
theorem C6_cached_rerun_no_artifact_fetches (hostVersion : String)
    (world : RegistryWorld) (globalCache : Bool) (disk : List String)
    (config : List (String × PluginOptions))
    (h : ∀ e ∈ config, cacheHitEntry hostVersion world globalCache disk e) :
    (get_plugins hostVersion world globalCache disk
        config).2.artifactFetches = 0 ∧
    (get_plugins hostVersion world globalCache disk config).2.disk = disk ∧
    get_plugins hostVersion world globalCache
        ((get_plugins hostVersion world globalCache disk config).2.disk)
        config =
      get_plugins hostVersion world globalCache disk config := by
  have hbase :
      regCacheAgrees world ([] : List (String × Option RegistryManifest)) :=
    fun rid m hm => by simp [List.lookup] at hm
  have h2 := get_plugins_fold_cacheHits hostVersion world globalCache
    config []
    { regCache := [], disk := disk, manifestFetches := 0,
      artifactFetches := 0 } hbase h
  have hd : (get_plugins hostVersion world globalCache disk
      config).2.disk = disk := h2.1
  have ha : (get_plugins hostVersion world globalCache disk
      config).2.artifactFetches = 0 := h2.2
  exact ⟨ha, hd, by rw [hd]⟩

/-- Witness for the amended claim C6 at a concrete input: the one-plugin
cache-hit configuration performs no artifact fetches and repeats
identically. -/
theorem C6_cached_rerun_witness :
    (get_plugins "0.1.0" cacheWorld true cacheDisk
        cacheConfig).2.artifactFetches = 0 ∧
    (get_plugins "0.1.0" cacheWorld true cacheDisk cacheConfig).2.disk =
      cacheDisk ∧
    get_plugins "0.1.0" cacheWorld true
        ((get_plugins "0.1.0" cacheWorld true cacheDisk
          cacheConfig).2.disk) cacheConfig =
      get_plugins "0.1.0" cacheWorld true cacheDisk cacheConfig := by
  refine C6_cached_rerun_no_artifact_fetches "0.1.0" cacheWorld true
    cacheDisk cacheConfig ?_
  intro e he
  simp only [cacheConfig, List.mem_singleton] at he
  subst he
  exact ⟨cacheManifest, cacheVersions, "1.0.0", by decide, by decide,
    by decide, by decide, by decide⟩

end DiscordBot
